import Mathlib

/-!
Verification development for the leaderboard pipeline in `src/run_query.py`.

The script fetches an activity table (rows with columns `userId`, `score`,
`purple`, `legendaries`) from one database, resolves usernames/eligibility
for the listed ids against a second database in bounded batches, removes
blacklisted ids, sorts the surviving rows by a descending score key with a
final ascending `userId` tie-break, truncates to `TOP_N`, and writes the
result table with columns `username, score, purple, legendaries, userId`.

The embedding below translates the in-memory data manipulation of that
script: pure Python functions become Lean functions, Python `Decimal`
values become rationals, Python's stable `list.sort` becomes a stable
insertion sort by the same total preorder, CSV artifacts become lists of
string rows, and database results become explicit list inputs.
-/

namespace RunQuery

/-- A cell value as consumed by `to_num` in the script: either something
`Decimal(str(x))` parses (modelled by the parsed rational) or something it
throws on (an unparsable token). -/
inductive Value where
  | num (q : ℚ)
  | bad (s : String)
deriving DecidableEq

/-- Embedding of `to_num` (run_query.py lines 31-35): `Decimal(str(x))`
with any parse failure mapped to `Decimal(0)`. -/
def to_num : Value → ℚ
  | .num q => q
  | .bad _ => 0

/-- One row of the DB1 activity table, restricted to the four columns the
script reads (`userId` is read through `str(...)`, hence a `String`). -/
structure Row where
  userId : String
  score : Value
  purple : Value
  legendaries : Value
deriving DecidableEq

/-- One row of the DB2 user table as used by the script: `userId`,
`username` (nullable) and the correlation tag `ord`. -/
structure UserRow where
  userId : String
  username : Option String
  ord : Int
deriving DecidableEq

/-- One row of the final `result_data.csv` table (line 324):
`[uname, score, purple, legendaries, uid]`. -/
structure ResultRow where
  username : String
  score : Value
  purple : Value
  legendaries : Value
  userId : String
deriving DecidableEq

/-- The sort key of lines 312-315: the Python tuple
`(to_num(score) * -1, to_num(purple) * -1, to_num(legendaries) * -1, str(userId))`,
compared lexicographically (Python tuple comparison), hence a lex product. -/
def sortKey (r : Row) : ℚ ×ₗ ℚ ×ₗ ℚ ×ₗ String :=
  toLex (-(to_num r.score),
    toLex (-(to_num r.purple), toLex (-(to_num r.legendaries), r.userId)))

/-- Row comparison induced by the sort key. -/
def rowLe (a b : Row) : Prop := sortKey a ≤ sortKey b

instance : DecidableRel rowLe :=
  fun a b => inferInstanceAs (Decidable (sortKey a ≤ sortKey b))

instance : IsTotal Row rowLe :=
  ⟨fun a b => le_total (sortKey a) (sortKey b)⟩

instance : IsTrans Row rowLe :=
  ⟨fun _ _ _ hab hbc => le_trans hab hbc⟩

/-- Embedding of `filtered.sort(key=...)` (line 312): Python `list.sort` is
a stable sort by the key tuple; any stable sort by the same total preorder
yields the same list, so it is modelled by stable insertion sort. -/
def sortRows (l : List Row) : List Row := l.insertionSort rowLe

/-! ## Blacklist parsing (`read_blacklist_ids`, lines 37-73)

The CSV file is modelled as the list of its parsed rows (a blank line
parses to `[]`); an absent file is `none`. -/

/-- Python `s.strip(c)` for a one-character strip set: drop `c` from both
ends. -/
def stripChar (c : Char) (s : String) : String :=
  ⟨((s.data.dropWhile (· == c)).reverse.dropWhile (· == c)).reverse⟩

/-- Python `s.strip()`: drop whitespace from both ends, character-wise. -/
def pyStrip (s : String) : String :=
  ⟨((s.data.dropWhile Char.isWhitespace).reverse.dropWhile Char.isWhitespace).reverse⟩

/-- Python `s.lower()`, character-wise (the alias table it is compared
against is plain ASCII). -/
def pyLower (s : String) : String := ⟨s.data.map Char.toLower⟩

/-- The header normalisation of line 47: `fn.strip(chr(34)).strip().lower()`. -/
def normHeader (fn : String) : String := pyLower (pyStrip (stripChar '"' fn))

/-- The recognised id-column aliases of line 47. -/
def idAliases : List String := ["userid", "user_id", "user id"]

/-- The per-field test of line 47: `fn and fn.strip(chr(34)).strip().lower() in (...)`. -/
def isIdAlias (fn : String) : Bool := (fn != "") && idAliases.contains (normHeader fn)

/-- Python `str` of a nullable CSV cell: `str(None)` is the literal
string `None`. -/
def pyStr : Option String → String
  | none => "None"
  | some s => s

/-- Lookup in the row dict built by `csv.DictReader` for a key that occurs
in `fieldnames`: `dict(zip(fieldnames, row))` (later duplicates win),
after which every fieldname at an index at or beyond `len(row)` is
overwritten with the restval `None`. -/
def dictGet (fns row : List String) (key : String) : Option String :=
  if (fns.drop row.length).contains key then none
  else (((fns.zip row).filter (fun p => p.1 == key)).getLast?).map Prod.snd

/-- The positional loops of lines 54-58 and 66-71: collect the stripped
first field of every row that has one, skipping empties. -/
def firstFieldIds (rows : List (List String)) : List String :=
  rows.filterMap fun row =>
    match row with
    | [] => none
    | v :: _ => if pyStrip v == "" then none else some (pyStrip v)

/-- The keyed loop of lines 60-63: for every non-blank row (DictReader
skips blank rows), `str(row.get(key)).strip()`, kept when non-empty. -/
def keyedIds (fns : List String) (rest : List (List String)) (key : String) : List String :=
  rest.filterMap fun row =>
    if row.isEmpty then none
    else
      let v := pyStrip (pyStr (dictGet fns row key))
      if v == "" then none else some v

/-- Embedding of the body of `read_blacklist_ids` on a present file.
`csv.DictReader` consumes the first row as `fieldnames` (even when the
file has no header); an empty first row is falsy, sending the script to
the positional branch over the whole file; otherwise the first fieldname
matching an id alias becomes the key, and failing that the positional
branch skips the first row (`next(reader, None)`). The Python result is a
set used only through membership, modelled as the collected list. -/
def readBlacklistRows (rows : List (List String)) : List String :=
  match rows with
  | [] => []
  | fns :: rest =>
    if fns.isEmpty then firstFieldIds (fns :: rest)
    else
      match fns.find? isIdAlias with
      | none => firstFieldIds rest
      | some key => keyedIds fns rest key

/-- Embedding of `read_blacklist_ids` (lines 37-73): an absent file yields
the empty set without error. -/
def read_blacklist_ids : Option (List (List String)) → List String
  | none => []
  | some rows => readBlacklistRows rows

/-! ## Raw-table column resolution (lines 198-205) -/

/-- The four required canonical columns of the raw activity table. -/
def rawRequiredCols : List String := ["userId", "score", "purple", "legendaries"]

/-- Embedding of lines 199-205: `cols1.index` is an exact, case-sensitive
list lookup; the first missing name raises `ValueError`, caught and turned
into the fatal schema error below. -/
def resolveRawColumns (cols : List String) : Except String (Nat × Nat × Nat × Nat) :=
  match cols.indexOf? "userId", cols.indexOf? "score",
      cols.indexOf? "purple", cols.indexOf? "legendaries" with
  | some iu, some isc, some ip, some il => .ok (iu, isc, ip, il)
  | _, _, _, _ => .error "Expected columns in raw_data: userId, score, purple, legendaries."

/-! ## Identity resolution (`fetch_usernames_with_values`, lines 236-277)

The DB2 source state is modelled as a function `src` from a subject id to
`none` (the id does not pass the query's eligibility filter) or
`some username` (eligible, with a nullable username). One batched
`execute_values` call over a chunk of `(id, ord)` pairs returns one row
per eligible pair, carrying its `ord` tag. -/

/-- The Postgres parameter cap assumed at line 249. -/
def MAX_PARAMS : Nat := 60000

/-- Line 250: `max(1, min(total_pairs, MAX_PARAMS // 2))`. -/
def maxPairsPerStmt (totalPairs : Nat) : Nat := max 1 (min totalPairs (MAX_PARAMS / 2))

/-- The while loop of lines 255-264 walks the pair list in consecutive
slices of `k` elements; `chunksOf k l` is that slicing. -/
def chunksOf {α : Type} (k : Nat) (l : List α) : List (List α) :=
  if _h : l.isEmpty || k == 0 then []
  else l.take k :: chunksOf k (l.drop k)
termination_by l.length
decreasing_by
  simp only [Bool.or_eq_true, List.isEmpty_iff, beq_iff_eq, not_or] at _h
  have hl : 0 < l.length := List.length_pos.mpr _h.1
  simp only [List.length_drop]
  omega

/-- One chunked query (line 259): the rows the source returns for a chunk
of `(id, ord)` pairs. -/
def queryChunk (src : String → Option (Option String)) (chunk : List (String × Int)) :
    List UserRow :=
  chunk.filterMap fun p => (src p.1).map fun u => ⟨p.1, u, p.2⟩

/-- Ascending order on the `ord` tag (line 269: `key=lambda r: int(r[j_ord])`). -/
def ordLe (a b : UserRow) : Prop := a.ord ≤ b.ord

instance : DecidableRel ordLe :=
  fun a b => inferInstanceAs (Decidable (a.ord ≤ b.ord))

/-- Line 269: the stable sort of the accumulated rows by `ord`. -/
def sortByOrd (rows : List UserRow) : List UserRow := rows.insertionSort ordLe

/-- The accumulation loop plus the final `ord` sort of lines 252-273,
for an arbitrary list of chunks. -/
def fetchUsernames (src : String → Option (Option String))
    (chunks : List (List (String × Int))) : List UserRow :=
  sortByOrd ((chunks.map (queryChunk src)).flatten)

/-- Embedding of `fetch_usernames_with_values` (lines 236-273) with the
script's actual chunking of the pair list. -/
def fetch_usernames_with_values (src : String → Option (Option String))
    (pairs : List (String × Int)) : List UserRow :=
  fetchUsernames src (chunksOf (maxPairsPerStmt pairs.length) pairs)

/-- Line 276: `pairs = [(uid, idx + 1) for idx, uid in enumerate(user_ids)]`. -/
def mkPairs (user_ids : List String) : List (String × Int) :=
  user_ids.enum.map fun p => (p.2, (p.1 : Int) + 1)

/-- Line 286: `r[j_uname] or str(r[j_user])` — a null or empty username
falls back to the id. -/
def unameOr (r : UserRow) : String :=
  match r.username with
  | none => r.userId
  | some u => if u = "" then r.userId else u

/-- Line 286: the dict comprehension `{str(r[j_user]): (r[j_uname] or str(r[j_user]))}`,
modelled extensionally (a later row for the same id overwrites an earlier
one, as in a Python dict). -/
def uname_by_id (rows : List UserRow) : String → Option String :=
  rows.foldl (fun m r => fun id => if id = r.userId then some (unameOr r) else m id)
    (fun _ => none)

/-! ## Filtering, sorting, ranking, output (lines 287-326) -/

/-- Line 287: `allowed_ids = set(uname_by_id.keys())`, as a membership test. -/
def allowedIds (rows2 : List UserRow) (uid : String) : Bool :=
  (uname_by_id rows2 uid).isSome

/-- The filter loop of lines 296-307: keep a raw row iff its id is allowed
and not blacklisted, preserving input order. -/
def buildFiltered (rows1 : List Row) (rows2 : List UserRow) (black : List String) :
    List Row :=
  rows1.filter fun r => allowedIds rows2 r.userId && !(black.contains r.userId)

/-- Lines 312-316: sort, then `filtered[:TOP_N]`. -/
def topRows (rows1 : List Row) (rows2 : List UserRow) (black : List String)
    (topN : Nat) : List Row :=
  (sortRows (buildFiltered rows1 rows2 black)).take topN

/-- Lines 321-324: one output row `[uname, score, purple, legendaries, uid]`
with `uname = uname_by_id.get(uid, uid)`. -/
def buildResultRow (rows2 : List UserRow) (r : Row) : ResultRow :=
  ⟨(uname_by_id rows2 r.userId).getD r.userId, r.score, r.purple, r.legendaries, r.userId⟩

/-- The full result-building path of main on a non-empty raw table
(lines 296-326). -/
def runPipeline (rows1 : List Row) (rows2 : List UserRow) (black : List String)
    (topN : Nat) : List ResultRow :=
  (topRows rows1 rows2 black topN).map (buildResultRow rows2)

/-- Line 319 (and 195): the column header written to `result_data.csv`. -/
def result_cols : List String := ["username", "score", "purple", "legendaries", "userId"]

/-- The observable outcome of main's result path: the header written to
`RESULT_CSV`, the data rows written under it, and the process exit status.
Lines 193-196 short-circuit an empty raw table to a header-only file and a
normal return (exit 0); otherwise lines 296-326 run and main returns
normally (exit 0). -/
def mainOutput (rows1 : List Row) (rows2 : List UserRow) (black : List String)
    (topN : Nat) : List String × List ResultRow × Nat :=
  if rows1.isEmpty then (result_cols, [], 0)
  else (result_cols, runPipeline rows1 rows2 black topN, 0)

/-! ## Snapshot adjustment -/

/-- Modelled from the spec: the Snapshot Adjuster of spec section 4.4 has no
implementation in `src/run_query.py` (the script neither loads a snapshot
artifact nor subtracts deductions). Modelled from the spec's words: the
snapshot maps a subject id to an already-deducted amount, coerced to a
number with parse failures defaulting to zero; an id absent from the
snapshot receives zero deduction. -/
def snapshotDeduction (snap : String → Option Value) (uid : String) : ℚ :=
  match snap uid with
  | none => 0
  | some v => to_num v

/-- Modelled from the spec: the application rule of spec section 4.4,
`adjustedValue = currentValue - deduction`, with no clamping at zero. -/
def adjustedValue (snap : String → Option Value) (uid : String) (current : ℚ) : ℚ :=
  current - snapshotDeduction snap uid

/-- A raw row with every metric replaced by the number `to_num` parses it
to (an unparsable metric becomes an explicit `0`). -/
def canonRow (r : Row) : Row :=
  ⟨r.userId, .num (to_num r.score), .num (to_num r.purple), .num (to_num r.legendaries)⟩

/-- The ordering condition claimed for adjacent output rows: score
non-increasing; on score ties purple non-increasing; on score and purple
ties legendaries non-increasing; on full metric ties userId non-decreasing. -/
def outOrdered (a b : ResultRow) : Prop :=
  to_num b.score ≤ to_num a.score ∧
  (to_num a.score = to_num b.score → to_num b.purple ≤ to_num a.purple) ∧
  (to_num a.score = to_num b.score → to_num a.purple = to_num b.purple →
    to_num b.legendaries ≤ to_num a.legendaries) ∧
  (to_num a.score = to_num b.score → to_num a.purple = to_num b.purple →
    to_num a.legendaries = to_num b.legendaries → a.userId ≤ b.userId)

/-! ## Helper lemmas -/

theorem sortRows_perm (l : List Row) : (sortRows l).Perm l :=
  List.perm_insertionSort rowLe l

theorem sortRows_pairwise (l : List Row) : (sortRows l).Pairwise rowLe :=
  List.sorted_insertionSort rowLe l

theorem mem_topRows {rows1 : List Row} {rows2 : List UserRow} {black : List String}
    {topN : Nat} {r : Row} (h : r ∈ topRows rows1 rows2 black topN) :
    r ∈ buildFiltered rows1 rows2 black :=
  (sortRows_perm _).mem_iff.mp (List.mem_of_mem_take h)

theorem mem_runPipeline {rows1 : List Row} {rows2 : List UserRow} {black : List String}
    {topN : Nat} {q : ResultRow} (h : q ∈ runPipeline rows1 rows2 black topN) :
    ∃ r, r ∈ rows1 ∧ q = buildResultRow rows2 r ∧
      allowedIds rows2 r.userId = true ∧ black.contains r.userId = false := by
  rcases List.mem_map.mp h with ⟨r, hr, rfl⟩
  rcases List.mem_filter.mp (mem_topRows hr) with ⟨h1, h2⟩
  simp only [Bool.and_eq_true, Bool.not_eq_true'] at h2
  exact ⟨r, h1, rfl, h2.1, h2.2⟩

theorem uname_foldl_lookup (rows : List UserRow) (m0 : String → Option String)
    (uid v : String)
    (h : rows.foldl (fun m r => fun id => if id = r.userId then some (unameOr r) else m id)
      m0 uid = some v) :
    m0 uid = some v ∨ ∃ u, u ∈ rows ∧ u.userId = uid ∧ v = unameOr u := by
  induction rows generalizing m0 with
  | nil => exact .inl h
  | cons r rows ih =>
    rcases ih _ h with h1 | ⟨u, hu, h2, h3⟩
    · have h1' : (if uid = r.userId then some (unameOr r) else m0 uid) = some v := h1
      by_cases hc : uid = r.userId
      · rw [if_pos hc] at h1'
        injection h1' with h1'
        exact .inr ⟨r, List.mem_cons_self r rows, hc.symm, h1'.symm⟩
      · rw [if_neg hc] at h1'
        exact .inl h1'
    · exact .inr ⟨u, List.mem_cons_of_mem _ hu, h2, h3⟩

theorem uname_by_id_eq_some {rows : List UserRow} {uid v : String}
    (h : uname_by_id rows uid = some v) :
    ∃ u, u ∈ rows ∧ u.userId = uid ∧ v = unameOr u := by
  rcases uname_foldl_lookup rows (fun _ => none) uid v h with h1 | h2
  · exact absurd h1 (by simp)
  · exact h2

theorem indexOf?_none_iff_not_mem (a : String) (l : List String) :
    l.indexOf? a = none ↔ a ∉ l := by
  rw [List.indexOf?_eq_none_iff]
  constructor
  · intro h ha
    exact h a ha (by simp)
  · intro h x hx hxa
    rw [beq_iff_eq] at hxa
    subst hxa
    exact h hx

theorem indexOf?_some_mem {a : String} {l : List String} {i : Nat}
    (h : l.indexOf? a = some i) : a ∈ l := by
  by_contra hmem
  rw [(indexOf?_none_iff_not_mem a l).mpr hmem] at h
  cases h

theorem queryChunk_append (src : String → Option (Option String))
    (l1 l2 : List (String × Int)) :
    queryChunk src (l1 ++ l2) = queryChunk src l1 ++ queryChunk src l2 := by
  simp [queryChunk]

theorem accumulate_eq (src : String → Option (Option String))
    (chunks : List (List (String × Int))) :
    (chunks.map (queryChunk src)).flatten = queryChunk src chunks.flatten := by
  induction chunks with
  | nil => rfl
  | cons c cs ih => simp [ih, queryChunk_append]

theorem chunksOf_flatten {α : Type} (k : Nat) (hk : k ≠ 0) (l : List α) :
    (chunksOf k l).flatten = l := by
  rw [chunksOf]
  split
  · rename_i h
    simp only [Bool.or_eq_true, List.isEmpty_iff, beq_iff_eq] at h
    rcases h with h | h
    · simp [h]
    · exact absurd h hk
  · rename_i h
    simp only [List.flatten_cons]
    rw [chunksOf_flatten k hk (l.drop k)]
    exact List.take_append_drop k l
termination_by l.length
decreasing_by
  rename_i h
  simp only [Bool.or_eq_true, List.isEmpty_iff, beq_iff_eq, not_or] at h
  have hl : 0 < l.length := List.length_pos.mpr h.1
  simp only [List.length_drop]
  omega

theorem maxPairsPerStmt_ne_zero (n : Nat) : maxPairsPerStmt n ≠ 0 := by
  simp only [maxPairsPerStmt, MAX_PARAMS]
  omega

theorem pairwise_adj {α : Type} {R : α → α → Prop} {l : List α}
    (h : l.Pairwise R) {i : Nat} {a b : α}
    (ha : l[i]? = some a) (hb : l[i + 1]? = some b) : R a b := by
  rcases List.getElem?_eq_some_iff.mp ha with ⟨hia, ea⟩
  rcases List.getElem?_eq_some_iff.mp hb with ⟨hib, eb⟩
  have := List.pairwise_iff_getElem.mp h i (i + 1) hia hib (Nat.lt_succ_self i)
  rwa [ea, eb] at this

theorem rowLe_cases {a b : Row} (h : rowLe a b) :
    to_num b.score ≤ to_num a.score ∧
    (to_num a.score = to_num b.score → to_num b.purple ≤ to_num a.purple) ∧
    (to_num a.score = to_num b.score → to_num a.purple = to_num b.purple →
      to_num b.legendaries ≤ to_num a.legendaries) ∧
    (to_num a.score = to_num b.score → to_num a.purple = to_num b.purple →
      to_num a.legendaries = to_num b.legendaries → a.userId ≤ b.userId) := by
  have h1 := (Prod.Lex.le_iff _ _).mp h
  simp only [neg_lt_neg_iff, neg_inj] at h1
  rcases h1 with h1 | ⟨he1, h2⟩
  · exact ⟨h1.le,
      fun he => absurd h1 (by rw [he]; exact lt_irrefl _),
      fun he _ => absurd h1 (by rw [he]; exact lt_irrefl _),
      fun he _ _ => absurd h1 (by rw [he]; exact lt_irrefl _)⟩
  · have h2' := (Prod.Lex.le_iff _ _).mp h2
    simp only [neg_lt_neg_iff, neg_inj] at h2'
    rcases h2' with h2' | ⟨he2, h3⟩
    · exact ⟨le_of_eq he1.symm,
        fun _ => h2'.le,
        fun _ hp => absurd h2' (by rw [hp]; exact lt_irrefl _),
        fun _ hp _ => absurd h2' (by rw [hp]; exact lt_irrefl _)⟩
    · have h3' := (Prod.Lex.le_iff _ _).mp h3
      simp only [neg_lt_neg_iff, neg_inj] at h3'
      rcases h3' with h3' | ⟨he3, hs⟩
      · exact ⟨le_of_eq he1.symm,
          fun _ => le_of_eq he2.symm,
          fun _ _ => h3'.le,
          fun _ _ hl => absurd h3' (by rw [hl]; exact lt_irrefl _)⟩
      · exact ⟨le_of_eq he1.symm,
          fun _ => le_of_eq he2.symm,
          fun _ _ => le_of_eq he3.symm,
          fun _ _ _ => hs⟩

theorem resolveRawColumns_eq (cols : List String) :
    (("userId" ∈ cols ∧ "score" ∈ cols ∧ "purple" ∈ cols ∧ "legendaries" ∈ cols) ∧
      (resolveRawColumns cols).isOk = true) ∨
    (¬("userId" ∈ cols ∧ "score" ∈ cols ∧ "purple" ∈ cols ∧ "legendaries" ∈ cols) ∧
      resolveRawColumns cols =
        .error "Expected columns in raw_data: userId, score, purple, legendaries.") := by
  rcases ho1 : cols.indexOf? "userId" with _ | iu
  · refine .inr ⟨fun hm => absurd ((indexOf?_none_iff_not_mem _ _).mp ho1)
      (not_not_intro hm.1), ?_⟩
    unfold resolveRawColumns
    rw [ho1]
  · rcases ho2 : cols.indexOf? "score" with _ | isc
    · refine .inr ⟨fun hm => absurd ((indexOf?_none_iff_not_mem _ _).mp ho2)
        (not_not_intro hm.2.1), ?_⟩
      unfold resolveRawColumns
      rw [ho1, ho2]
    · rcases ho3 : cols.indexOf? "purple" with _ | ip
      · refine .inr ⟨fun hm => absurd ((indexOf?_none_iff_not_mem _ _).mp ho3)
          (not_not_intro hm.2.2.1), ?_⟩
        unfold resolveRawColumns
        rw [ho1, ho2, ho3]
      · rcases ho4 : cols.indexOf? "legendaries" with _ | il
        · refine .inr ⟨fun hm => absurd ((indexOf?_none_iff_not_mem _ _).mp ho4)
            (not_not_intro hm.2.2.2), ?_⟩
          unfold resolveRawColumns
          rw [ho1, ho2, ho3, ho4]
        · refine .inl ⟨⟨indexOf?_some_mem ho1, indexOf?_some_mem ho2,
            indexOf?_some_mem ho3, indexOf?_some_mem ho4⟩, ?_⟩
          unfold resolveRawColumns
          rw [ho1, ho2, ho3, ho4]
          rfl

/-! ## Claim theorems -/

/-- Claim C1 (amended): the final output carries no explicit rank field;
it consists of exactly `k = min(topN, surviving record count)` data rows
(the truncated, sorted sequence), so the implicit 1-based row positions
form the contiguous sequence `1..k`. -/
theorem claim1_output_row_count (rows1 : List Row) (rows2 : List UserRow)
    (black : List String) (topN : Nat) :
    ((mainOutput rows1 rows2 black topN).2.1).length =
      min topN (buildFiltered rows1 rows2 black).length ∧
    "rank" ∉ (mainOutput rows1 rows2 black topN).1 := by
  constructor
  · rw [mainOutput]
    by_cases h : rows1.isEmpty
    · rw [if_pos h]
      rw [List.isEmpty_iff] at h
      subst h
      simp [buildFiltered]
    · rw [if_neg h]
      simp [runPipeline, topRows, sortRows]
  · rw [mainOutput]
    by_cases h : rows1.isEmpty
    · rw [if_pos h]
      show "rank" ∉ result_cols
      decide
    · rw [if_neg h]
      show "rank" ∉ result_cols
      decide

/-- Claim C1, counterexample to the claim as stated: a concrete run whose
output is non-empty, yet whose emitted column list contains no rank field
at all. -/
theorem claim1_counterexample :
    (mainOutput [⟨"a", .num 1, .num 0, .num 0⟩] [⟨"a", some "A", 1⟩] [] 3000).2.1 ≠ [] ∧
    "rank" ∉ (mainOutput [⟨"a", .num 1, .num 0, .num 0⟩] [⟨"a", some "A", 1⟩] [] 3000).1 := by
  decide

/-- Claim C2: the snapshot-adjusted value is exactly the base value minus
the recorded deduction, with no clamping, and an id absent from the
snapshot receives zero deduction. The Snapshot Adjuster itself is
modelled from the spec, having no implementation in src. -/
theorem claim2_snapshot_exact_subtraction (snap : String → Option Value)
    (uid uid2 : String) (g a : ℚ) (h : snap uid = some (Value.num a)) :
    adjustedValue snap uid g = g - a ∧
    (snap uid2 = none → adjustedValue snap uid2 g = g) := by
  constructor
  · simp [adjustedValue, snapshotDeduction, h, to_num]
  · intro h2
    simp [adjustedValue, snapshotDeduction, h2]

/-- Claim C2, witness: a deduction of 5 on a base value of 1 yields
exactly 1 - 5 (negative, unclamped), and an absent id is unchanged. -/
theorem claim2_witness :
    (fun u => if u = "x" then some (Value.num 5) else none) "x" = some (Value.num 5) ∧
    (adjustedValue (fun u => if u = "x" then some (Value.num 5) else none) "x" 1 = 1 - 5 ∧
      ((fun u => if u = "x" then some (Value.num 5) else none) "y" = none →
        adjustedValue (fun u => if u = "x" then some (Value.num 5) else none) "y" 1 = 1)) :=
  ⟨rfl, claim2_snapshot_exact_subtraction _ "x" "y" 1 5 rfl⟩

/-- Claim C6 (amended): the activity-table columns are resolved by exact,
case-sensitive name lookup on userId, score, purple, legendaries; the
lookup succeeds exactly when all four exact names are present, and
otherwise fails with the fatal error naming the expected columns (alias
and case-insensitive matching exists only in the blacklist header
parsing). -/
theorem claim6_exact_column_match (cols : List String) :
    ((resolveRawColumns cols).isOk = true ↔
      ("userId" ∈ cols ∧ "score" ∈ cols ∧ "purple" ∈ cols ∧ "legendaries" ∈ cols)) ∧
    ((resolveRawColumns cols).isOk = false →
      resolveRawColumns cols =
        .error "Expected columns in raw_data: userId, score, purple, legendaries.") := by
  rcases resolveRawColumns_eq cols with ⟨hm, hok⟩ | ⟨hm, herr⟩
  · refine ⟨⟨fun _ => hm, fun _ => hok⟩, fun hf => ?_⟩
    rw [hf] at hok
    exact absurd hok (by decide)
  · refine ⟨⟨fun hok => ?_, fun hmem => absurd hmem hm⟩, fun _ => herr⟩
    rw [herr] at hok
    exact absurd (hok : false = true) (by decide)

/-- Claim C6, witness: on a table with all four exact column names the
resolution succeeds, and the iff holds there. -/
theorem claim6_witness :
    (resolveRawColumns ["userId", "score", "purple", "legendaries"]).isOk = true ∧
    ("userId" ∈ (["userId", "score", "purple", "legendaries"] : List String)) :=
  ⟨((claim6_exact_column_match ["userId", "score", "purple", "legendaries"]).1).mpr
      (by decide), by decide⟩

/-- Claim C6, counterexample to the claim as stated: the table
`[user_id, score, purple, legendaries]` offers the alias variant
`user_id` for the subject-id column (the blacklist parser would accept
it), yet the raw-table resolution fails with the schema error, so alias
normalization is not applied to fetched activity tables. -/
theorem claim6_counterexample :
    isIdAlias "user_id" = true ∧
    resolveRawColumns ["user_id", "score", "purple", "legendaries"] =
      .error "Expected columns in raw_data: userId, score, purple, legendaries." := by
  constructor
  · decide
  · rfl

/-- Claim C7 (amended): for a present blacklist file with no header row,
the first row is consumed as a presumed header; when none of its fields
alias-matches an id column, ids are collected from the second row onward
only, so every non-empty stripped first-field value of every row after
the first is included (the first row's own value is lost). -/
theorem claim7_headerless_first_row_lost (fns : List String) (rest : List (List String))
    (hfns : fns ≠ []) (hkey : fns.find? isIdAlias = none)
    (row : List String) (hrow : row ∈ rest) (v : String) (tl : List String)
    (hv : row = v :: tl) (hne : pyStrip v ≠ "") :
    readBlacklistRows (fns :: rest) = firstFieldIds rest ∧
    pyStrip v ∈ readBlacklistRows (fns :: rest) := by
  have hred : readBlacklistRows (fns :: rest) = firstFieldIds rest := by
    simp only [readBlacklistRows]
    rw [if_neg (by simp [hfns]), hkey]
  refine ⟨hred, ?_⟩
  rw [hred]
  refine List.mem_filterMap.mpr ⟨row, hrow, ?_⟩
  rw [hv]
  simp only []
  rw [if_neg (by simp [hne])]

/-- Claim C7, witness: in the headerless file with rows 111 and 222, the
value of the second row is included. -/
theorem claim7_witness :
    (["111"] : List String) ≠ [] ∧
    (["111"] : List String).find? isIdAlias = none ∧
    (["222"] : List String) ∈ ([["222"]] : List (List String)) ∧
    pyStrip "222" ≠ "" ∧
    (readBlacklistRows [["111"], ["222"]] = firstFieldIds [["222"]] ∧
      pyStrip "222" ∈ readBlacklistRows [["111"], ["222"]]) :=
  ⟨by decide, by decide, by decide, by decide,
    claim7_headerless_first_row_lost ["111"] [["222"]] (by decide) (by decide)
      ["222"] (by decide) "222" [] rfl (by decide)⟩

/-- Claim C7, counterexample to the claim as stated: a present blacklist
file with no header row, rows 111 and 222; the non-empty first-field
value 111 of the first row is not included in the exclusion set. -/
theorem claim7_counterexample :
    pyStrip "111" = "111" ∧
    "111" ∉ readBlacklistRows [["111"], ["222"]] ∧
    "222" ∈ readBlacklistRows [["111"], ["222"]] := by
  decide

/-- Claim C8 (amended): on an empty activity result the pipeline
short-circuits, writing the result artifact with only the header row
`username, score, purple, legendaries, userId` (displayName, score,
purple, legendaries, subjectId — with no rank column) and exiting with
status 0. -/
theorem claim8_empty_input_short_circuit (rows2 : List UserRow) (black : List String)
    (topN : Nat) :
    mainOutput [] rows2 black topN = (result_cols, [], 0) ∧
    result_cols = ["username", "score", "purple", "legendaries", "userId"] ∧
    "rank" ∉ result_cols :=
  ⟨rfl, rfl, by decide⟩

/-- Claim C8, counterexample to the claim as stated: the header written on
the empty short-circuit contains no rank column. -/
theorem claim8_counterexample :
    (mainOutput [] [] [] 3000).1 = ["username", "score", "purple", "legendaries", "userId"] ∧
    "rank" ∉ (mainOutput [] [] [] 3000).1 ∧
    (mainOutput [] [] [] 3000).2.1 = [] ∧
    (mainOutput [] [] [] 3000).2.2 = 0 :=
  ⟨rfl, by decide, rfl, rfl⟩

/-- Claim C10: the sort-key computation is total over unparsable metric
values: an unparsable value contributes exactly 0 to the sort key (the
key of any row equals the key of the row with each metric replaced by its
parsed-or-zero number), and sorting always produces a permutation of its
input. -/
theorem claim10_unparsable_sorts_as_zero (s : String) (r : Row) (l : List Row) :
    to_num (Value.bad s) = 0 ∧
    sortKey r = sortKey (canonRow r) ∧
    (sortRows l).Perm l :=
  ⟨rfl, rfl, List.perm_insertionSort rowLe l⟩

/-- Claim C3: for adjacent rows of the final output, score is
non-increasing; on score ties purple, then legendaries, are
non-increasing in that order; on full metric ties the subjectId is
non-decreasing. -/
theorem claim3_adjacent_output_ordered (rows1 : List Row) (rows2 : List UserRow)
    (black : List String) (topN : Nat) (i : Nat) (a b : ResultRow)
    (ha : (runPipeline rows1 rows2 black topN)[i]? = some a)
    (hb : (runPipeline rows1 rows2 black topN)[i + 1]? = some b) :
    outOrdered a b := by
  have hp : (topRows rows1 rows2 black topN).Pairwise rowLe :=
    (sortRows_pairwise (buildFiltered rows1 rows2 black)).sublist
      (List.take_sublist _ _)
  have hp2 : (runPipeline rows1 rows2 black topN).Pairwise outOrdered := by
    refine hp.map (buildResultRow rows2) ?_
    intro x y hxy
    simpa [outOrdered, buildResultRow] using rowLe_cases hxy
  exact pairwise_adj hp2 ha hb

/-- Claim C3, witness: a concrete two-row run whose adjacent output rows
satisfy the ordering condition. -/
theorem claim3_witness :
    (runPipeline [⟨"a", .num 1, .num 0, .num 0⟩, ⟨"b", .num 2, .num 0, .num 0⟩]
        [⟨"a", some "A", 1⟩, ⟨"b", some "B", 2⟩] [] 3000)[0]? =
      some ⟨"B", .num 2, .num 0, .num 0, "b"⟩ ∧
    (runPipeline [⟨"a", .num 1, .num 0, .num 0⟩, ⟨"b", .num 2, .num 0, .num 0⟩]
        [⟨"a", some "A", 1⟩, ⟨"b", some "B", 2⟩] [] 3000)[0 + 1]? =
      some ⟨"A", .num 1, .num 0, .num 0, "a"⟩ ∧
    outOrdered ⟨"B", .num 2, .num 0, .num 0, "b"⟩ ⟨"A", .num 1, .num 0, .num 0, "a"⟩ :=
  ⟨by decide, by decide,
    claim3_adjacent_output_ordered
      [⟨"a", .num 1, .num 0, .num 0⟩, ⟨"b", .num 2, .num 0, .num 0⟩]
      [⟨"a", some "A", 1⟩, ⟨"b", some "B", 2⟩] [] 3000 0
      ⟨"B", .num 2, .num 0, .num 0, "b"⟩ ⟨"A", .num 1, .num 0, .num 0, "a"⟩
      (by decide) (by decide)⟩

/-- Claim C4: every row of the final output has a subjectId that is
present in the identity mapping resolved from the user source and absent
from the blacklist exclusion set; no ineligible or blacklisted id ever
appears in the output. -/
theorem claim4_output_only_eligible (rows1 : List Row)
    (src : String → Option (Option String)) (chunks : List (List (String × Int)))
    (bl : Option (List (List String))) (topN : Nat) (q : ResultRow)
    (hq : q ∈ runPipeline rows1 (fetchUsernames src chunks) (read_blacklist_ids bl) topN) :
    (uname_by_id (fetchUsernames src chunks) q.userId).isSome = true ∧
    q.userId ∉ read_blacklist_ids bl := by
  rcases mem_runPipeline hq with ⟨r, _hr, rfl, ha, hb⟩
  refine ⟨ha, ?_⟩
  intro hmem
  have hc : List.elem r.userId (read_blacklist_ids bl) = true := List.elem_iff.mpr hmem
  have hb2 : List.elem r.userId (read_blacklist_ids bl) = false := hb
  rw [hb2] at hc
  cases hc

/-- Claim C4, witness: a concrete run with one eligible id and a keyed
blacklist containing a different id; the output row is eligible and not
blacklisted. -/
theorem claim4_witness :
    (⟨"A", .num 2, .num 0, .num 0, "a"⟩ : ResultRow) ∈
      runPipeline [⟨"a", .num 2, .num 0, .num 0⟩]
        (fetchUsernames (fun id => if id = "a" then some (some "A") else none) [[("a", 1)]])
        (read_blacklist_ids (some [["userId"], ["z"]])) 3000 ∧
    ((uname_by_id (fetchUsernames (fun id => if id = "a" then some (some "A") else none)
        [[("a", 1)]]) "a").isSome = true ∧
      ("a" : String) ∉ read_blacklist_ids (some [["userId"], ["z"]])) :=
  ⟨by decide,
    claim4_output_only_eligible [⟨"a", .num 2, .num 0, .num 0⟩]
      (fun id => if id = "a" then some (some "A") else none) [[("a", 1)]]
      (some [["userId"], ["z"]]) 3000 ⟨"A", .num 2, .num 0, .num 0, "a"⟩ (by decide)⟩

/-- Claim C5: the resolved identity mapping is independent of how the
input pairs are partitioned into chunks — any two chunkings of the same
pair list give the same accumulated, ord-sorted rows and the same
id-to-username mapping — and the script's own chunking is one such
partition; repeated resolution on identical input is identical because
the embedding is a pure function of its input. -/
theorem claim5_chunking_invariant (src : String → Option (Option String))
    (pairs : List (String × Int)) (chunks1 chunks2 : List (List (String × Int)))
    (h1 : chunks1.flatten = pairs) (h2 : chunks2.flatten = pairs) :
    fetchUsernames src chunks1 = fetchUsernames src chunks2 ∧
    uname_by_id (fetchUsernames src chunks1) = uname_by_id (fetchUsernames src chunks2) ∧
    fetch_usernames_with_values src pairs = fetchUsernames src chunks1 := by
  have key : ∀ chunks : List (List (String × Int)), chunks.flatten = pairs →
      fetchUsernames src chunks = sortByOrd (queryChunk src pairs) := by
    intro chunks hc
    unfold fetchUsernames
    rw [accumulate_eq, hc]
  have e1 := key chunks1 h1
  have e2 := key chunks2 h2
  have e3 := key (chunksOf (maxPairsPerStmt pairs.length) pairs)
    (chunksOf_flatten _ (maxPairsPerStmt_ne_zero _) pairs)
  refine ⟨e1.trans e2.symm, by rw [e1, e2], ?_⟩
  unfold fetch_usernames_with_values
  rw [e3, e1]

/-- Claim C5, witness: the one-chunk and two-chunk resolutions of the
pair list agree on a concrete source. -/
theorem claim5_witness :
    fetchUsernames (fun id => if id = "a" then some (some "A") else none)
        [[("a", 1), ("b", 2)]] =
      fetchUsernames (fun id => if id = "a" then some (some "A") else none)
        [[("a", 1)], [("b", 2)]] ∧
    uname_by_id (fetchUsernames (fun id => if id = "a" then some (some "A") else none)
        [[("a", 1), ("b", 2)]]) =
      uname_by_id (fetchUsernames (fun id => if id = "a" then some (some "A") else none)
        [[("a", 1)], [("b", 2)]]) ∧
    fetch_usernames_with_values (fun id => if id = "a" then some (some "A") else none)
        [("a", 1), ("b", 2)] =
      fetchUsernames (fun id => if id = "a" then some (some "A") else none)
        [[("a", 1), ("b", 2)]] :=
  claim5_chunking_invariant (fun id => if id = "a" then some (some "A") else none)
    [("a", 1), ("b", 2)] [[("a", 1), ("b", 2)]] [[("a", 1)], [("b", 2)]] rfl rfl

/-- Claim C9 (amended): a null or empty resolved username falls back to
the raw subjectId as displayName; consequently, provided every input
subjectId is non-empty, no output row has an empty displayName (an empty
subjectId itself would flow through to an empty displayName). -/
theorem claim9_displayname_never_empty (rows1 : List Row) (rows2 : List UserRow)
    (black : List String) (topN : Nat)
    (hne : ∀ r ∈ rows1, r.userId ≠ "") :
    (∀ u : UserRow, (u.username = none ∨ u.username = some "") → unameOr u = u.userId) ∧
    ∀ q ∈ runPipeline rows1 rows2 black topN, q.username ≠ "" := by
  constructor
  · intro u hu
    rcases hu with hu | hu <;> simp [unameOr, hu]
  · intro q hq
    rcases mem_runPipeline hq with ⟨r, hr, rfl, _, _⟩
    have hrne : r.userId ≠ "" := hne r hr
    show (uname_by_id rows2 r.userId).getD r.userId ≠ ""
    rcases hopt : uname_by_id rows2 r.userId with _ | v
    · simpa using hrne
    · rcases uname_by_id_eq_some hopt with ⟨u, _, huid, hv⟩
      have : unameOr u ≠ "" := by
        unfold unameOr
        rcases u.username with _ | w
        · rwa [huid]
        · by_cases hw : w = ""
          · rw [hw]
            simpa using huid ▸ hrne
          · simp only [if_neg hw]
            exact hw
      simpa [hv] using this

/-- Claim C9, witness: a concrete run where the resolved username is the
empty string; the output displayName is the (non-empty) subjectId. -/
theorem claim9_witness :
    (∀ r ∈ ([⟨"a", .num 1, .num 0, .num 0⟩] : List Row), r.userId ≠ "") ∧
    ((∀ u : UserRow, (u.username = none ∨ u.username = some "") → unameOr u = u.userId) ∧
      ∀ q ∈ runPipeline [⟨"a", .num 1, .num 0, .num 0⟩] [⟨"a", some "", 1⟩] [] 3000,
        q.username ≠ "") :=
  ⟨by decide,
    claim9_displayname_never_empty [⟨"a", .num 1, .num 0, .num 0⟩] [⟨"a", some "", 1⟩]
      [] 3000 (by decide)⟩

/-- Claim C9, counterexample to the claim as stated: when a record's
subjectId is itself the empty string and its resolved username is null,
the output row's displayName is empty. -/
theorem claim9_counterexample :
    (⟨"", .num 1, .num 0, .num 0, ""⟩ : ResultRow) ∈
      runPipeline [⟨"", .num 1, .num 0, .num 0⟩] [⟨"", none, 1⟩] [] 3000 ∧
    (⟨"", .num 1, .num 0, .num 0, ""⟩ : ResultRow).username = "" := by
  decide

end RunQuery
